import Mathlib

/-
Verification of the xformers fmha dispatch and autograd-bridge layer
(`xformers/ops/fmha/__init__.py` and `xformers/ops/fmha/flash.py`) against its
natural-language specification.

The embedding models tensors by their observable metadata (shape, dtype,
device, requires-grad flag, an opaque data tag and a storage identity tag);
the numerical contents of tensors are outside the scope of the dispatch layer.
Backend kernels, the operator registry and the dispatcher (which live in
`common.py` / `dispatch.py` / the native extension, outside the provided
sources) are modelled as explicit parameters, following the specification
(section 4.2, 4.3 and the design notes: an explicit, process-initialized
registry of backend handles passed to the dispatcher).

The ambient CUDA random-number-generator state is modelled as a natural
number threaded explicitly through the functions that read or write it
(`torch.cuda.get_rng_state` / `set_rng_state`).
-/

deriving instance DecidableEq for Except

namespace XformersFmha

/-- Supported device kinds (`torch.device` kind). -/
inductive DevKind where
  | cuda
  | cpu
  deriving DecidableEq, Repr

/-- A compute device: its kind and, for cuda, the compute capability reported
by `torch.cuda.get_device_capability`. -/
structure Device where
  kind : DevKind
  capMajor : Nat := 0
  capMinor : Nat := 0
  deriving DecidableEq, Repr

/-- Numeric dtypes relevant to this layer (`torch.half`, `torch.bfloat16`,
`torch.float32`). -/
inductive DType where
  | f16
  | bf16
  | f32
  deriving DecidableEq, Repr

/-- A tensor, by its metadata: shape, dtype, device, the autograd
requires-grad flag, an opaque tag standing for its contents and a storage
identity tag (`tensor.storage().data_ptr()`). -/
structure Tensor where
  shape : List Nat := []
  dtype : DType := DType.f16
  device : Device := { kind := DevKind.cuda, capMajor := 8, capMinor := 0 }
  requiresGrad : Bool := false
  data : Nat := 0
  storageId : Nat := 0
  deriving DecidableEq, Repr

/-- `tensor.ndim`. -/
def Tensor.ndim (t : Tensor) : Nat := t.shape.length

/-- `tensor.shape[-1]` (0 on an empty shape, which the shape checks rule out). -/
def Tensor.lastDim (t : Tensor) : Nat := t.shape.getLastD 0

/-- `tensor.reshape(s)`: same contents, new shape. -/
def Tensor.reshape (t : Tensor) (s : List Nat) : Tensor := { t with shape := s }

/-- `tensor.detach()`: same tensor, detached from gradient tracking. -/
def Tensor.detach (t : Tensor) : Tensor := { t with requiresGrad := false }

/-- `torch.empty(s, dtype=dt, device=dev)`: fresh uninitialized tensor. -/
def Tensor.empty (s : List Nat) (dt : DType) (dev : Device) : Tensor :=
  { shape := s, dtype := dt, device := dev }

/-- `torch.empty_like(t)`. -/
def Tensor.emptyLike (t : Tensor) : Tensor := Tensor.empty t.shape t.dtype t.device

/-- The `attn_bias` argument at runtime: `None`, an arbitrary dense
`torch.Tensor`, or the structured `LowerTriangularMask` (no tensor payload). -/
inductive AttnBias where
  | none
  | tensor (t : Tensor)
  | lowerTriangularMask
  deriving DecidableEq, Repr

/-- `isinstance(attn_bias, torch.Tensor)`. -/
def AttnBias.isTensor : AttnBias → Bool
  | AttnBias.tensor _ => true
  | _ => false

/-- Identities of the registered backend operator classes
(`flash.FwOp`, `flash.BwOp`, `cutlass.FwOp`, ...).  Python compares operator
classes by identity (`is` / `is not`); class identity is equality here. -/
inductive OpId where
  | flashFw
  | flashBw
  | cutlassFw
  | cutlassBw
  | smallKFw
  | smallKBw
  | tritonFw
  | tritonBw
  deriving DecidableEq, Repr

/-- The error kinds this layer can raise (spec section 7): shape mismatches,
dispatch failure, unsupported configurations (dropout on a non-autograd entry,
pinned-operator conflict, unsupported bias type), assertion failures and
opaque backend kernel failures. -/
inductive Err where
  | shapeError
  | dispatchFailed
  | dropoutUnsupported
  | policyConflict
  | unsupportedBiasType
  | assertionFailed
  | kernelFailed
  deriving DecidableEq, Repr

/-- `Inputs` (`xformers/ops/fmha/common.py`): the operands of one attention
call.  Dropout probability is an exact rational, scale is optional. -/
structure Inputs where
  query : Tensor
  key : Tensor
  value : Tensor
  attn_bias : AttnBias := AttnBias.none
  p : ℚ := 0
  scale : Option ℚ := Option.none
  deriving DecidableEq, Repr

/-- `Inputs.device` (the shared device of the operands). -/
def Inputs.device (inp : Inputs) : Device := inp.query.device

/-- `Context` (`xformers/ops/fmha/common.py`, spec section 3): produced by a
forward operator; holds the output, the log-sum-exp, an optional snapshot of
the RNG state consumed by dropout, and an optional pinned backward operator. -/
structure Context where
  out : Tensor
  lse : Tensor
  rng_state : Option Nat := Option.none
  op_bw : Option OpId := Option.none
  deriving DecidableEq, Repr

/-- `Gradients` (`xformers/ops/fmha/common.py`): `dq`, `dk`, `dv`. -/
structure Gradients where
  dq : Tensor
  dk : Tensor
  dv : Tensor
  deriving DecidableEq, Repr

/-- Inserting the singleton heads axis: `[B, M, K] -> [B, M, 1, K]`. -/
def unsqueezeHeads (t : Tensor) : Tensor :=
  Tensor.reshape t [t.shape.getD 0 0, t.shape.getD 1 0, 1, t.shape.getD 2 0]

/-- Modelled from the spec: `Inputs.normalize_bmhk` lives in
`xformers/ops/fmha/common.py`, which is not among the provided sources.  Per
spec sections 3 and 4.1 it promotes rank-3 `[B, M, K]` operands to rank-4
`[B, M, 1, K]` by inserting a singleton heads axis, fails with a ShapeError
when the query/key embedding dims mismatch or when rank-3 and rank-4 operands
are mixed, and returns the original (pre-normalization) output shape
`[B, Mq, (H,) Kv]` so outputs can be restored. -/
def normalize_bmhk (inp : Inputs) : Except Err (Inputs × List Nat) :=
  if inp.query.ndim = 4 ∧ inp.key.ndim = 4 ∧ inp.value.ndim = 4 then
    if inp.query.lastDim ≠ inp.key.lastDim then Except.error Err.shapeError
    else
      Except.ok (inp,
        [inp.query.shape.getD 0 0, inp.query.shape.getD 1 0,
         inp.query.shape.getD 2 0, inp.value.lastDim])
  else if inp.query.ndim = 3 ∧ inp.key.ndim = 3 ∧ inp.value.ndim = 3 then
    if inp.query.lastDim ≠ inp.key.lastDim then Except.error Err.shapeError
    else
      Except.ok
        ({ inp with
            query := unsqueezeHeads inp.query,
            key := unsqueezeHeads inp.key,
            value := unsqueezeHeads inp.value },
         [inp.query.shape.getD 0 0, inp.query.shape.getD 1 0, inp.value.lastDim])
  else Except.error Err.shapeError

/-- Modelled from the spec: `bmk2bmhk` lives in `xformers/ops/fmha/common.py`,
not among the provided sources.  It lifts a rank-3 BMK tensor to BMHK with a
singleton heads axis and leaves BMHK tensors unchanged. -/
def bmk2bmhk (t : Tensor) : Tensor :=
  if t.ndim = 3 then unsqueezeHeads t else t

/-- Modelled from the spec: the operator registry and the two dispatch
policies live in `xformers/ops/fmha/dispatch.py` and `common.py`, not among
the provided sources.  Per spec sections 4.2, 4.3 and the design notes, they
are an explicit process-initialized collection of backend handles consulted by
the entry points; the embedding passes them as an explicit parameter.
`fwApply o inp needsGradient` runs forward backend `o`; `bwApply` runs a
backward backend; `dispatchFw` / `dispatchBw` walk the priority list and
return the first accepting backend or a dispatch error. -/
structure Registry where
  fwApply : OpId → Inputs → Bool → Except Err (Tensor × Option Context)
  bwApply : OpId → Context → Inputs → Tensor → Except Err Gradients
  dispatchFw : Inputs → Except Err OpId
  dispatchBw : Inputs → Except Err OpId

/-- `_memory_efficient_attention_forward` (`__init__.py`, lines 296-302):
normalize, dispatch unless an explicit operator bypasses the search, run the
forward backend without gradient support, restore the output shape. -/
def mea_forward_internal (R : Registry) (inp : Inputs) (op : Option OpId) :
    Except Err Tensor :=
  match normalize_bmhk inp with
  | Except.error e => Except.error e
  | Except.ok (inp2, outShape) =>
    match (match op with
           | Option.some o => Except.ok o
           | Option.none => R.dispatchFw inp2) with
    | Except.error e => Except.error e
    | Except.ok opf =>
      match R.fwApply opf inp2 false with
      | Except.error e => Except.error e
      | Except.ok res => Except.ok (Tensor.reshape res.1 outShape)

/-- `_memory_efficient_attention_forward_requires_grad` (`__init__.py`,
lines 305-313): like the forward path but requesting gradient-support mode,
asserting that the backend produced a `Context`. -/
def mea_forward_requires_grad_internal (R : Registry) (inp : Inputs)
    (op : Option OpId) : Except Err (Tensor × Context) :=
  match normalize_bmhk inp with
  | Except.error e => Except.error e
  | Except.ok (inp2, outShape) =>
    match (match op with
           | Option.some o => Except.ok o
           | Option.none => R.dispatchFw inp2) with
    | Except.error e => Except.error e
    | Except.ok opf =>
      match R.fwApply opf inp2 true with
      | Except.error e => Except.error e
      | Except.ok res =>
        match res.2 with
        | Option.none => Except.error Err.assertionFailed
        | Option.some c => Except.ok (Tensor.reshape res.1 outShape, c)

/-- `_memory_efficient_attention_backward` (`__init__.py`, lines 316-345):
the grad/out rank check, in-place normalization, the lse shape checks
(lse has shape `[B, H, M]` or larger in the last dim), BMK-to-BMHK lifting of
`grad` and `ctx.out`, then backward dispatch and execution. -/
def mea_backward_internal (R : Registry) (ctx : Context) (inp : Inputs)
    (grad : Tensor) (op : Option OpId) : Except Err Gradients :=
  if grad.ndim ≠ inp.query.ndim ∨ grad.ndim ≠ ctx.out.ndim then
    Except.error Err.shapeError
  else
    match normalize_bmhk inp with
    | Except.error e => Except.error e
    | Except.ok (inp2, _) =>
      if ctx.lse.ndim ≠ 3
          ∨ ctx.lse.shape.getD 0 0 ≠ inp2.query.shape.getD 0 0
          ∨ ctx.lse.shape.getD 1 0 ≠ inp2.query.shape.getD 2 0
          ∨ ctx.lse.shape.getD 2 0 < inp2.query.shape.getD 1 0 then
        Except.error Err.shapeError
      else
        match (match op with
               | Option.some o => Except.ok o
               | Option.none => R.dispatchBw inp2) with
        | Except.error e => Except.error e
        | Except.ok opb =>
            R.bwApply opb { ctx with out := bmk2bmhk ctx.out } inp2 (bmk2bmhk grad)

/-- The `attn_bias` split inside `_fMHA.forward` (`__init__.py`, lines 46-53):
the torch part goes to `save_for_backward`, anything else to opaque side
state; in Python both unused slots hold `None`. -/
def splitAttnBias (b : AttnBias) : Option Tensor × AttnBias :=
  match b with
  | AttnBias.tensor t => (Option.some t, AttnBias.none)
  | other => (Option.none, other)

/-- `_fMHA.deserialize_bias` (`__init__.py`, lines 79-85). -/
def deserialize_bias (attn_bias_ctx : AttnBias) (attn_bias_tensor : Option Tensor) :
    AttnBias :=
  match attn_bias_tensor with
  | Option.none => attn_bias_ctx
  | Option.some t => AttnBias.tensor t

/-- The pinned-backward-operator resolution inside `_fMHA.forward`
(`__init__.py`, lines 64-70): when the forward `Context` pins an `op_bw`,
a different explicit backward operator raises, otherwise the pinned operator
is the one recorded. -/
def resolvePinnedOpBw (op_bw : Option OpId) (ctx_op_bw : Option OpId) :
    Except Err (Option OpId) :=
  match ctx_op_bw with
  | Option.none => Except.ok op_bw
  | Option.some pb =>
    match op_bw with
    | Option.some ob =>
      if ob ≠ pb then Except.error Err.policyConflict else Except.ok (Option.some pb)
    | Option.none => Except.ok (Option.some pb)

/-- The state persisted by `_fMHA.forward` across the autograd boundary:
the tensors passed to `save_for_backward` (query/key/value detached, out,
lse, rng_state, the tensor-form bias) plus the non-tensor side state stored
on `ctx` (`op_fw`, `op_bw`, `p`, `scale`, `attn_bias_ctx`, `n_args`). -/
structure SavedState where
  query : Tensor
  key : Tensor
  value : Tensor
  out : Tensor
  lse : Tensor
  rng_state : Option Nat
  attn_bias_tensor : Option Tensor
  op_fw : Option OpId
  op_bw : Option OpId
  p : ℚ
  scale : Option ℚ
  attn_bias_ctx : AttnBias
  nArgs : Nat
  deriving DecidableEq, Repr

/-- `_fMHA.forward` (`__init__.py`, lines 37-77): runs the gradient-support
forward, splits the bias, resolves the pinned backward operator, persists the
saved state and returns the output.  `op` is the caller operator pair;
`n_args = 6` is `len(args)` for the six positional arguments
`query, key, value, attn_bias, p, scale`. -/
def fMHA_forward (R : Registry) (op : Option (OpId × OpId)) (query key value : Tensor)
    (attn_bias : AttnBias) (p : ℚ) (scale : Option ℚ) :
    Except Err (Tensor × SavedState) :=
  let inp : Inputs :=
    { query := query, key := key, value := value, attn_bias := attn_bias,
      p := p, scale := scale }
  let op_fw := op.map Prod.fst
  let op_bw0 := op.map Prod.snd
  match mea_forward_requires_grad_internal R inp op_fw with
  | Except.error e => Except.error e
  | Except.ok (out, opCtx) =>
    let s := splitAttnBias inp.attn_bias
    match resolvePinnedOpBw op_bw0 opCtx.op_bw with
    | Except.error e => Except.error e
    | Except.ok op_bw =>
      Except.ok (out,
        { query := inp.query.detach, key := inp.key.detach, value := inp.value.detach,
          out := opCtx.out, lse := opCtx.lse, rng_state := opCtx.rng_state,
          attn_bias_tensor := s.1, op_fw := op_fw, op_bw := op_bw,
          p := inp.p, scale := inp.scale, attn_bias_ctx := s.2, nArgs := 6 })

/-- `_fMHA.backward` (`__init__.py`, lines 87-111): the needs-input-grad
assertion (`all(not ctx.needs_input_grad[i] for i in range(ctx.n_args)
if i not in [1, 2, 3])`, written here as an unfiltered conjunction over
`range st.nArgs`), input/context reconstruction, backward execution, and the
positionally aligned gradient tuple
`(None, dq, dk, dv) + (None,) * (n_args - 3)`.
`needsInputGrad` is the autograd-provided tuple, one flag per forward input
(the operator selector at position 0, then the six positional arguments). -/
def fMHA_backward (R : Registry) (st : SavedState) (needsInputGrad : List Bool)
    (grad : Tensor) : Except Err (List (Option Tensor)) :=
  if ¬ ((List.range st.nArgs).all
      (fun i => decide (i = 1 ∨ i = 2 ∨ i = 3) || !(needsInputGrad.getD i false))) then
    Except.error Err.assertionFailed
  else
    let inp : Inputs :=
      { query := st.query, key := st.key, value := st.value,
        attn_bias := deserialize_bias st.attn_bias_ctx st.attn_bias_tensor,
        p := st.p, scale := st.scale }
    let opCtx : Context := { out := st.out, lse := st.lse, rng_state := st.rng_state }
    match mea_backward_internal R opCtx inp grad st.op_bw with
    | Except.error e => Except.error e
    | Except.ok grads =>
      Except.ok ([Option.none, Option.some grads.dq, Option.some grads.dk,
        Option.some grads.dv] ++ List.replicate (st.nArgs - 3) Option.none)

/-- `_memory_efficient_attention` (`__init__.py`, lines 281-293): the full
differentiable call.  The returned flag records which branch ran: `false` for
the no-gradient fast path, `true` for the autograd bridge. -/
def mea_full (R : Registry) (inp : Inputs) (op : Option (OpId × OpId)) :
    Except Err (Tensor × Bool) :=
  if inp.query.requiresGrad = false ∧ inp.key.requiresGrad = false
      ∧ inp.value.requiresGrad = false then
    (mea_forward_internal R inp (op.map Prod.fst)).map (fun t => (t, false))
  else
    match normalize_bmhk inp with
    | Except.error e => Except.error e
    | Except.ok (inp2, outShape) =>
      match fMHA_forward R op inp2.query inp2.key inp2.value inp2.attn_bias
          inp2.p inp2.scale with
      | Except.error e => Except.error e
      | Except.ok res => Except.ok (Tensor.reshape res.1 outShape, true)

/-- Public entry `memory_efficient_attention` (`__init__.py`, lines 114-195). -/
def memory_efficient_attention (R : Registry) (query key value : Tensor)
    (attn_bias : AttnBias) (p : ℚ) (scale : Option ℚ) (op : Option (OpId × OpId)) :
    Except Err (Tensor × Bool) :=
  mea_full R
    { query := query, key := key, value := value, attn_bias := attn_bias,
      p := p, scale := scale } op

/-- Public entry `memory_efficient_attention_forward` (`__init__.py`,
lines 198-214): constructs `Inputs` and runs the non-differentiable forward
path directly; the source performs no dropout check here. -/
def memory_efficient_attention_forward (R : Registry) (query key value : Tensor)
    (attn_bias : AttnBias) (p : ℚ) (scale : Option ℚ) (op : Option OpId) :
    Except Err Tensor :=
  mea_forward_internal R
    { query := query, key := key, value := value, attn_bias := attn_bias,
      p := p, scale := scale } op

/-- Public entry `memory_efficient_attention_forward_requires_grad`
(`__init__.py`, lines 217-243): rejects `p != 0` before anything else, then
runs the gradient-support forward and returns `(out, lse)`. -/
def memory_efficient_attention_forward_requires_grad (R : Registry)
    (query key value : Tensor) (attn_bias : AttnBias) (p : ℚ) (scale : Option ℚ)
    (op : Option OpId) : Except Err (Tensor × Tensor) :=
  if p ≠ 0 then Except.error Err.dropoutUnsupported
  else
    match mea_forward_requires_grad_internal R
        { query := query, key := key, value := value, attn_bias := attn_bias,
          p := p, scale := scale } op with
    | Except.error e => Except.error e
    | Except.ok res => Except.ok (res.1, res.2.lse)

/-- Public entry `memory_efficient_attention_backward` (`__init__.py`,
lines 246-278): rejects `p != 0` before anything else, then runs the manual
backward and returns `(dq, dk, dv)`. -/
def memory_efficient_attention_backward (R : Registry) (grad output lse : Tensor)
    (query key value : Tensor) (attn_bias : AttnBias) (p : ℚ) (scale : Option ℚ)
    (op : Option OpId) : Except Err (Tensor × Tensor × Tensor) :=
  if p ≠ 0 then Except.error Err.dropoutUnsupported
  else
    match mea_backward_internal R { out := output, lse := lse }
        { query := query, key := key, value := value, attn_bias := attn_bias,
          p := p, scale := scale } grad op with
    | Except.error e => Except.error e
    | Except.ok g => Except.ok (g.dq, g.dk, g.dv)

/-- The static capability metadata each backend declares
(`AttentionOpBase` class attributes; spec section 3, Operator descriptor). -/
structure OpDescriptor where
  supportedDevices : List DevKind
  supportedDtypes : List DType
  supportedMaxK : Nat
  acceptsBiasNone : Bool
  acceptsBiasTensor : Bool
  acceptsBiasLowerTriangular : Bool
  supportsDropout : Bool
  supportsCustomScale : Bool
  supportsDifferentValueEmbed : Bool
  deriving DecidableEq, Repr

/-- Whether a descriptor accepts the runtime type of an `attn_bias` value
(`type(d.attn_bias) in cls.SUPPORTED_ATTN_BIAS_TYPES`). -/
def OpDescriptor.acceptsBias (D : OpDescriptor) : AttnBias → Bool
  | AttnBias.none => D.acceptsBiasNone
  | AttnBias.tensor _ => D.acceptsBiasTensor
  | AttnBias.lowerTriangularMask => D.acceptsBiasLowerTriangular

/-- Modelled from the spec: `AttentionOpBase.supports` lives in
`xformers/ops/fmha/common.py`, not among the provided sources.  Per spec
section 4.2 it is the pure static-metadata check: device kind, dtype, maximum
embedding width, accepted bias variants, dropout support, custom-scale
support, and differing value embedding support. -/
def baseSupports (D : OpDescriptor) (d : Inputs) : Bool :=
  D.supportedDevices.contains d.device.kind
    && D.supportedDtypes.contains d.query.dtype
    && decide (d.query.lastDim ≤ D.supportedMaxK)
    && decide (d.value.lastDim ≤ D.supportedMaxK)
    && D.acceptsBias d.attn_bias
    && (decide (d.p = 0) || D.supportsDropout)
    && (d.scale.isNone || D.supportsCustomScale)
    && (decide (d.query.lastDim = d.value.lastDim) || D.supportsDifferentValueEmbed)

/-- `flash.FwOp`'s static metadata (`flash.py`, lines 85-92):
cuda, f16/bf16, max K 128, bias either absent or lower-triangular, dropout,
custom scale, no differing value embedding.  `flash.BwOp` (lines 166-173)
reuses every field. -/
def flashDescriptor : OpDescriptor :=
  { supportedDevices := [DevKind.cuda],
    supportedDtypes := [DType.f16, DType.bf16],
    supportedMaxK := 128,
    acceptsBiasNone := true,
    acceptsBiasTensor := false,
    acceptsBiasLowerTriangular := true,
    supportsDropout := true,
    supportsCustomScale := true,
    supportsDifferentValueEmbed := false }

/-- `flash.FwOp.supports` (`flash.py`, lines 95-107).  `fwLoaded` models
`cls.OPERATOR is None` (the native flash-attention extension failed to
import); the fine-grained checks are the embedding-width alignment to 8 and
the compute capability at least (7, 5). -/
def flashFwSupports (fwLoaded : Bool) (d : Inputs) : Bool :=
  if !fwLoaded then false
  else if !(baseSupports flashDescriptor d) then false
  else if d.query.lastDim % 8 > 0 then false
  else decide (d.device.capMajor > 7 ∨ (d.device.capMajor = 7 ∧ d.device.capMinor ≥ 5))

/-- `flash.BwOp.supports` (`flash.py`, lines 176-184): forward support plus
the backward-only narrowing that a head dimension above 64 requires an sm80
device (compute capability exactly (8, 0)). -/
def flashBwSupports (fwLoaded : Bool) (d : Inputs) : Bool :=
  if !(flashFwSupports fwLoaded d) then false
  else
    let is_sm80 := decide (d.device.capMajor = 8 ∧ d.device.capMinor = 0)
    if max d.key.lastDim d.query.lastDim > 64 && !is_sm80 then false
    else true

/-- The softmax scale computed by `_convert_input_format` (`flash.py`,
line 69): the default `query.shape[-1] ** (-0.5)` is kept symbolic (it is
irrational), a custom scale is the exact value. -/
inductive Scale where
  | defaultOf (k : Nat)
  | custom (s : ℚ)
  deriving DecidableEq, Repr

/-- `_convert_input_format` (`flash.py`, lines 32-70): flattens BMHK operands
to `[batch * seqlen, num_heads, head_dim]`, builds the cumulative sequence
length tables and the softmax scale. -/
def flashConvertInputFormat (inp : Inputs) :
    Inputs × Scale × List Nat × Nat × List Nat × Nat :=
  let batch := inp.query.shape.getD 0 0
  let seqlenQ := inp.query.shape.getD 1 0
  let seqlenKV := inp.key.shape.getD 1 0
  let numHeads := inp.query.shape.getD 2 0
  let headDimQ := inp.query.shape.getD 3 0
  let headDimV := inp.value.shape.getD 3 0
  let cuSeqlensK := (List.range (batch + 1)).map (fun i => i * seqlenKV)
  let cuSeqlensQ :=
    if seqlenQ = seqlenKV then cuSeqlensK
    else (List.range (batch + 1)).map (fun i => i * seqlenQ)
  let newInp :=
    { inp with
        query := Tensor.reshape inp.query [batch * seqlenQ, numHeads, headDimQ],
        key := Tensor.reshape inp.key [batch * seqlenKV, numHeads, headDimQ],
        value := Tensor.reshape inp.value [batch * seqlenKV, numHeads, headDimV] }
  let softmaxScale : Scale :=
    match inp.scale with
    | Option.none => Scale.defaultOf inp.query.lastDim
    | Option.some s => Scale.custom s
  (newInp, softmaxScale, cuSeqlensQ, seqlenQ, cuSeqlensK, seqlenKV)

/-- The native forward kernel `_C_flashattention.fwd`, abstracted: given the
ambient RNG state it returns the advanced RNG state and the `softmax_lse`
tensor (the attention output is written into the preallocated buffer). -/
structure FlashFwKernel where
  run : Nat → Nat × Tensor

/-- The native backward kernel `_C_flashattention.bwd`, abstracted: given the
ambient RNG state it returns an outcome (a raised exception is `Except.error`)
together with the RNG state it leaves behind. -/
structure FlashBwKernel where
  run : Nat → Except Unit Unit × Nat

/-- `flash.FwOp.apply` (`flash.py`, lines 109-161), with the ambient RNG
state threaded explicitly: rejects dense-tensor biases, converts the input
format, snapshots the RNG state before the kernel runs when `p != 0`,
runs the kernel, and returns a `Context` that pins `flash.BwOp` and carries
the snapshot exactly when `p != 0`.  The result pairs the Python return value
with the RNG state after the call. -/
def flashFwApply (K : FlashFwKernel) (inp : Inputs) (needsGradient : Bool)
    (rng : Nat) : Except Err (Tensor × Option Context) × Nat :=
  match inp.attn_bias with
  | AttnBias.tensor _ => (Except.error Err.unsupportedBiasType, rng)
  | _ =>
    let _causal := inp.attn_bias = AttnBias.lowerTriangularMask
    let _ngUnused := needsGradient
    let outShape := [inp.query.shape.getD 0 0, inp.query.shape.getD 1 0,
                     inp.query.shape.getD 2 0, inp.value.shape.getD 3 0]
    let c := flashConvertInputFormat inp
    let inp2 := c.1
    let out0 := Tensor.empty
      [inp2.query.shape.getD 0 0, inp2.query.shape.getD 1 0,
       inp2.value.shape.getD 2 0] inp2.query.dtype inp2.device
    let rngState : Option Nat := if inp.p ≠ 0 then Option.some rng else Option.none
    let kres := K.run rng
    let softmaxLse := kres.2
    let out := Tensor.reshape out0 outShape
    let ctx0 : Context := { out := out, lse := softmaxLse }
    let ctx :=
      if inp.p ≠ 0 then
        { ctx0 with op_bw := Option.some OpId.flashBw, rng_state := rngState }
      else ctx0
    (Except.ok (out, Option.some ctx), kres.1)

/-- `flash.BwOp.apply` (`flash.py`, lines 186-266), with the ambient RNG
state threaded explicitly.  The gradient buffers are allocated (through the
shared-storage chunk fast path when query/key/value share one storage), the
grad dtype assertion runs, then for `p != 0` the current RNG state is saved,
the checkpointed state from the `Context` is installed, the kernel runs, and
the saved state is restored after a successful kernel call; a kernel failure
propagates as an exception with the RNG state the kernel left behind.  The
result pairs the Python outcome with the RNG state after the call. -/
def flashBwApply (K : FlashBwKernel) (ctx : Context) (inp : Inputs)
    (grad : Tensor) (rng : Nat) : Except Err Gradients × Nat :=
  let dqShape := inp.query.shape
  let dkShape := inp.key.shape
  let dvShape := inp.value.shape
  let c := flashConvertInputFormat inp
  let inp2 := c.1
  let _kernelOutShape := [inp2.query.shape.getD 0 0, inp2.query.shape.getD 1 0,
                          inp2.value.shape.getD 2 0]
  let grads : Gradients :=
    if inp2.query.shape.getD 0 0 = inp2.key.shape.getD 0 0
        ∧ inp2.query.shape.getD 2 0 = inp2.value.shape.getD 2 0
        ∧ inp2.query.storageId = inp2.key.storageId
        ∧ inp2.query.storageId = inp2.value.storageId then
      -- one contiguous `[q0, 3, q1, q2]` chunk, gradients are its slices
      let chunk := Tensor.empty
        [inp2.query.shape.getD 0 0, 3, inp2.query.shape.getD 1 0,
         inp2.query.shape.getD 2 0] inp2.query.dtype inp2.device
      let sel := fun (j : Nat) =>
        { chunk with
            shape := [inp2.query.shape.getD 0 0, inp2.query.shape.getD 1 0,
                      inp2.query.shape.getD 2 0],
            data := j }
      { dq := sel 0, dk := sel 1, dv := sel 2 }
    else
      { dq := Tensor.emptyLike inp2.query, dk := Tensor.emptyLike inp2.key,
        dv := Tensor.emptyLike inp2.value }
  if ¬ (grad.dtype = DType.f16 ∨ grad.dtype = DType.bf16) then
    (Except.error Err.assertionFailed, rng)
  else if inp2.p ≠ 0 then
    match ctx.rng_state with
    | Option.none => (Except.error Err.assertionFailed, rng)
    | Option.some checkpoint =>
      let curRngState := rng
      -- torch.cuda.set_rng_state(ctx.rng_state); the kernel runs from there
      match K.run checkpoint with
      | (Except.error _, rngAfter) => (Except.error Err.kernelFailed, rngAfter)
      | (Except.ok _, _) =>
        -- torch.cuda.set_rng_state(cur_rng_state)
        (Except.ok
          { dq := Tensor.reshape grads.dq dqShape,
            dk := Tensor.reshape grads.dk dkShape,
            dv := Tensor.reshape grads.dv dvShape }, curRngState)
  else
    match K.run rng with
    | (Except.error _, rngAfter) => (Except.error Err.kernelFailed, rngAfter)
    | (Except.ok _, rngAfter) =>
      (Except.ok
        { dq := Tensor.reshape grads.dq dqShape,
          dk := Tensor.reshape grads.dk dkShape,
          dv := Tensor.reshape grads.dv dvShape }, rngAfter)

/-! ### Concrete fixtures used by witnesses and counterexamples -/

/-- Dropout probability 1/2, as a raw reduced rational (kernel-reducible). -/
def halfP : ℚ := { num := 1, den := 2 }

/-- A rank-4 `[1, 2, 1, 4]` f16 tensor on an sm80 cuda device. -/
def t4 : Tensor := { shape := [1, 2, 1, 4] }

/-- A rank-4 `[1, 2, 1, 64]` f16 tensor (embedding width aligned to 8). -/
def t64 : Tensor := { shape := [1, 2, 1, 64] }

/-- An lse tensor of shape `[B, H, M] = [1, 1, 2]` matching `t4` operands. -/
def lseFix : Tensor := { shape := [1, 1, 2] }

/-- A fixed backend output for the trivial registry. -/
def outFix : Tensor := { shape := [1, 2, 1, 4], data := 5 }

/-- A recognizable output only the probed backend produces. -/
def sentinelOut : Tensor := { shape := [1, 2, 1, 4], data := 77 }

/-- Fixed gradients returned by the trivial backward backend. -/
def gradsFix : Gradients :=
  { dq := { shape := [1, 2, 1, 4], data := 11 },
    dk := { shape := [1, 2, 1, 4], data := 12 },
    dv := { shape := [1, 2, 1, 4], data := 13 } }

/-- Rank-4 operands, no bias, `p = 0`, no custom scale. -/
def inpFix : Inputs := { query := t4, key := t4, value := t4 }

/-- Like `inpFix` but with embedding width 64. -/
def inpFix64 : Inputs := { query := t64, key := t64, value := t64 }

/-- A trivial total registry: every apply succeeds with fixed results. -/
def R0 : Registry :=
  { fwApply := fun _ _ _ => Except.ok (outFix, Option.some { out := outFix, lse := lseFix }),
    bwApply := fun _ _ _ _ => Except.ok gradsFix,
    dispatchFw := fun _ => Except.ok OpId.flashFw,
    dispatchBw := fun _ => Except.ok OpId.flashBw }

/-- A registry whose forward backend returns the sentinel output (and no
`Context`), so a sentinel in a result proves the backend was invoked. -/
def backendProbe : Registry :=
  { fwApply := fun _ _ _ => Except.ok (sentinelOut, Option.none),
    bwApply := fun _ _ _ _ => Except.error Err.kernelFailed,
    dispatchFw := fun _ => Except.error Err.dispatchFailed,
    dispatchBw := fun _ => Except.error Err.dispatchFailed }

/-! ### C1 — dropout on the non-differentiable forward entry point -/

/-- C1 counterexample: the claim says every `memory_efficient_attention_forward`
call with `p != 0` fails with an unsupported-configuration error before any
backend is invoked.  Here a concrete call with `p = 1/2` succeeds and returns
the backend's sentinel output, so the backend was invoked and no error was
raised: the source of that entry point contains no dropout check. -/
theorem C1_forward_no_dropout_check_cex :
    halfP ≠ 0
    ∧ memory_efficient_attention_forward backendProbe t4 t4 t4 AttnBias.none
        halfP Option.none (Option.some OpId.flashFw)
      = Except.ok sentinelOut := by
  refine ⟨by decide, ?_⟩
  rfl

/-- C1 amended: the plain forward entry point performs no dropout check; the
unsupported-configuration error for `p != 0` is raised, before dispatch or any
backend invocation, by `memory_efficient_attention_forward_requires_grad` and
`memory_efficient_attention_backward`. -/
theorem C1_dropout_rejected_on_grad_entries (R : Registry)
    (grad output lse q k v : Tensor) (b : AttnBias) (p : ℚ) (s : Option ℚ)
    (opF opB : Option OpId) (hp : p ≠ 0) :
    memory_efficient_attention_forward_requires_grad R q k v b p s opF
      = Except.error Err.dropoutUnsupported
    ∧ memory_efficient_attention_backward R grad output lse q k v b p s opB
      = Except.error Err.dropoutUnsupported := by
  constructor
  · unfold memory_efficient_attention_forward_requires_grad
    rw [if_pos hp]
  · unfold memory_efficient_attention_backward
    rw [if_pos hp]

/-- C1 amended, witness at `p = 1/2`. -/
theorem C1_dropout_rejected_on_grad_entries_witness :
    memory_efficient_attention_forward_requires_grad backendProbe t4 t4 t4
        AttnBias.none halfP Option.none Option.none
      = Except.error Err.dropoutUnsupported :=
  (C1_dropout_rejected_on_grad_entries backendProbe t4 t4 lseFix t4 t4 t4
    AttnBias.none halfP Option.none Option.none Option.none
    (by decide)).1

/-! ### C2 — RNG save/restore around the flash backward kernel -/

/-- A backward kernel that advances the RNG state and then fails. -/
def failBwKernel : FlashBwKernel := ⟨fun s => (Except.error (), s + 1)⟩

/-- A backward kernel that advances the RNG state and succeeds. -/
def okBwKernel : FlashBwKernel := ⟨fun s => (Except.ok (), s + 1)⟩

/-- Context with a checkpointed RNG state, as left by a dropout forward. -/
def ctxC2 : Context := { out := t4, lse := lseFix, rng_state := Option.some 7 }

/-- Dropout inputs for the backward kernel fixtures. -/
def inpC2 : Inputs := { query := t4, key := t4, value := t4, p := halfP }

/-- C2 counterexample: the claim says the ambient RNG state is restored on
every exit path of the backward kernel invocation, including kernel failure.
Here the kernel fails after advancing the installed checkpoint (7 becomes 8),
and the caller observes RNG state 8 instead of the ambient 42: the restore in
the source runs only after a successful kernel call (no try/finally). -/
theorem C2_rng_leak_on_kernel_failure_cex :
    flashBwApply failBwKernel ctxC2 inpC2 t4 42
      = (Except.error Err.kernelFailed, 8)
    ∧ (8 : Nat) ≠ 42 := by
  exact ⟨by decide, by decide⟩

/-- C2 amended: for `p != 0` the ambient RNG state is saved before the
checkpointed state is installed and is restored on the successful exit path of
the kernel invocation; on kernel failure the restore is skipped and the caller
observes whatever state the failed kernel left behind. -/
theorem C2_rng_restored_on_success (K : FlashBwKernel) (ctx : Context)
    (inp : Inputs) (grad : Tensor) (rng r : Nat)
    (hd : grad.dtype = DType.f16 ∨ grad.dtype = DType.bf16)
    (hp : inp.p ≠ 0) (hr : ctx.rng_state = Option.some r)
    (hk : (K.run r).1 = Except.ok ()) :
    (flashBwApply K ctx inp grad rng).2 = rng
    ∧ ∃ g, (flashBwApply K ctx inp grad rng).1 = Except.ok g := by
  rcases hkr : K.run r with ⟨f, s⟩
  rw [hkr] at hk
  simp only at hk
  subst hk
  simp only [flashBwApply, flashConvertInputFormat, Inputs.device, hr, hkr]
  rw [if_neg (fun hcon => hcon hd), if_pos hp]
  exact ⟨rfl, ⟨_, rfl⟩⟩

/-- C2 amended, witness: a successful dropout backward restores the ambient
state 42. -/
theorem C2_rng_restored_on_success_witness :
    (flashBwApply okBwKernel ctxC2 inpC2 t4 42).2 = 42
    ∧ ∃ g, (flashBwApply okBwKernel ctxC2 inpC2 t4 42).1 = Except.ok g :=
  C2_rng_restored_on_success okBwKernel ctxC2 inpC2 t4 42 7
    (Or.inl rfl) (by decide) rfl rfl

/-! ### C3 — pinned backward operator policy -/

/-- C3: when the `Context` produced by the differentiable forward carries a
pinned `op_bw`, a caller-supplied explicit backward operator different from
the pinned one makes the forward call fail with the policy-conflict error;
a caller that supplied none, or the same operator, gets the pinned operator
recorded as the backward operator. -/
theorem C3_pinned_op_bw_policy (R : Registry) (opArg : Option (OpId × OpId))
    (q k v : Tensor) (b : AttnBias) (p : ℚ) (s : Option ℚ)
    (out : Tensor) (opCtx : Context) (pb : OpId)
    (hfw : mea_forward_requires_grad_internal R
        { query := q, key := k, value := v, attn_bias := b, p := p, scale := s }
        (opArg.map Prod.fst) = Except.ok (out, opCtx))
    (hpin : opCtx.op_bw = Option.some pb) :
    (∀ f ob, opArg = Option.some (f, ob) → ob ≠ pb →
        fMHA_forward R opArg q k v b p s = Except.error Err.policyConflict)
    ∧ ((opArg.map Prod.snd = Option.none ∨ opArg.map Prod.snd = Option.some pb) →
        ∃ st, fMHA_forward R opArg q k v b p s = Except.ok (out, st)
          ∧ st.op_bw = Option.some pb) := by
  constructor
  · intro f ob hop hne
    subst hop
    simp only [fMHA_forward]
    rw [hfw]
    simp only [resolvePinnedOpBw, hpin, Option.map]
    rw [if_pos hne]
  · intro hor
    simp only [fMHA_forward]
    rw [hfw]
    rcases opArg with _ | ⟨f, ob⟩
    · simp only [resolvePinnedOpBw, hpin, Option.map]
      exact ⟨_, rfl, rfl⟩
    · have hob : ob = pb := by
        rcases hor with hnone | hsome
        · exact absurd hnone (by simp)
        · simpa using hsome
      subst hob
      simp only [resolvePinnedOpBw, hpin, Option.map]
      rw [if_neg (fun hcon => hcon rfl)]
      exact ⟨_, rfl, rfl⟩

/-- C3 witness: a registry whose forward backend pins `flash.BwOp`. -/
def pinReg : Registry :=
  { fwApply := fun _ _ _ =>
      Except.ok (outFix,
        Option.some { out := outFix, lse := lseFix, op_bw := Option.some OpId.flashBw }),
    bwApply := fun _ _ _ _ => Except.ok gradsFix,
    dispatchFw := fun _ => Except.ok OpId.flashFw,
    dispatchBw := fun _ => Except.ok OpId.flashBw }

/-- C3, witness: with the pinned registry, an explicit conflicting backward
operator (`cutlassBw` against pinned `flashBw`) makes the forward fail. -/
theorem C3_pinned_op_bw_policy_witness :
    fMHA_forward pinReg (Option.some (OpId.flashFw, OpId.cutlassBw)) t4 t4 t4
        AttnBias.none 0 Option.none
      = Except.error Err.policyConflict :=
  (C3_pinned_op_bw_policy pinReg (Option.some (OpId.flashFw, OpId.cutlassBw))
      t4 t4 t4 AttnBias.none 0 Option.none outFix
      { out := outFix, lse := lseFix, op_bw := Option.some OpId.flashBw }
      OpId.flashBw rfl rfl).1
    OpId.flashFw OpId.cutlassBw rfl (by decide)

/-! ### C5 — bias split and recombination round trip -/

/-- C5: the forward phase routes `attn_bias` into exactly one of the two
storage slots — the graph-tracked tensor slot exactly when the bias is a
dense tensor (the opaque slot then holds the `None` placeholder), the opaque
side-state slot otherwise — and `deserialize_bias` applied to the stored pair
returns the original bias (the split/recombine round trip is the identity). -/
theorem C5_bias_split_roundtrip (R : Registry) (op : Option (OpId × OpId))
    (q k v : Tensor) (b : AttnBias) (p : ℚ) (s : Option ℚ) (out : Tensor)
    (st : SavedState)
    (h : fMHA_forward R op q k v b p s = Except.ok (out, st)) :
    deserialize_bias st.attn_bias_ctx st.attn_bias_tensor = b
    ∧ st.attn_bias_tensor.isSome = b.isTensor
    ∧ st.attn_bias_ctx = (if b.isTensor then AttnBias.none else b) := by
  simp only [fMHA_forward] at h
  rcases hm : mea_forward_requires_grad_internal R
      { query := q, key := k, value := v, attn_bias := b, p := p, scale := s }
      (op.map Prod.fst) with e | ⟨out0, opCtx⟩
  · rw [hm] at h
    exact absurd h (by simp)
  · rw [hm] at h
    simp only at h
    rcases hr : resolvePinnedOpBw (op.map Prod.snd) opCtx.op_bw with e2 | ob
    · rw [hr] at h
      exact absurd h (by simp)
    · rw [hr] at h
      simp only [Except.ok.injEq, Prod.mk.injEq] at h
      obtain ⟨hout, hst⟩ := h
      subst hst
      cases b <;> simp [splitAttnBias, deserialize_bias, AttnBias.isTensor]

/-- C5 witness: a concrete successful forward with a structured-mask bias. -/
theorem C5_bias_split_roundtrip_witness :
    deserialize_bias (if AttnBias.lowerTriangularMask.isTensor then AttnBias.none
        else AttnBias.lowerTriangularMask) Option.none
      = AttnBias.lowerTriangularMask := by
  have h := C5_bias_split_roundtrip R0 Option.none t4 t4 t4
    AttnBias.lowerTriangularMask 0 Option.none outFix
    { query := t4.detach, key := t4.detach, value := t4.detach,
      out := outFix, lse := lseFix, rng_state := Option.none,
      attn_bias_tensor := Option.none, op_fw := Option.none, op_bw := Option.none,
      p := 0, scale := Option.none, attn_bias_ctx := AttnBias.lowerTriangularMask,
      nArgs := 6 } rfl
  simpa using h.1

/-! ### C6 — no-gradient fast path of the full differentiable entry -/

/-- C6: when none of query/key/value require gradients, the full
differentiable entry point returns exactly the result of the
non-differentiable forward path, invoked with the forward half of the
operator override, and the autograd bridge is not invoked (branch flag
`false`). -/
theorem C6_no_grad_fast_path (R : Registry) (inp : Inputs)
    (op : Option (OpId × OpId))
    (h1 : inp.query.requiresGrad = false) (h2 : inp.key.requiresGrad = false)
    (h3 : inp.value.requiresGrad = false) :
    mea_full R inp op
      = (mea_forward_internal R inp (op.map Prod.fst)).map (fun t => (t, false)) := by
  unfold mea_full
  rw [if_pos ⟨h1, h2, h3⟩]

/-- C6 witness: concrete non-requires-grad operands take the fast path. -/
theorem C6_no_grad_fast_path_witness :
    mea_full R0 inpFix Option.none
      = (mea_forward_internal R0 inpFix Option.none).map (fun t => (t, false)) :=
  C6_no_grad_fast_path R0 inpFix Option.none rfl rfl rfl

/-! ### C7 — manual backward shape validation -/

/-- C7: given inputs that normalize successfully and a registry whose
dispatcher and backends never raise a shape error themselves, the manual
backward fails with a shape error exactly when grad's rank differs from the
query rank or from the context-out rank, or lse is not rank 3, or its leading
dimension is not the batch size, or its second dimension is not the number of
heads, or its last dimension is strictly smaller than the query sequence
length (a larger, padded lse is accepted). -/
theorem C7_backward_shape_validation (R : Registry) (ctx : Context)
    (inp : Inputs) (grad : Tensor) (op : Option OpId) (inp2 : Inputs)
    (oshape : List Nat)
    (hn : normalize_bmhk inp = Except.ok (inp2, oshape))
    (hdb : ∀ i, R.dispatchBw i ≠ Except.error Err.shapeError)
    (hba : ∀ o c i g, R.bwApply o c i g ≠ Except.error Err.shapeError) :
    mea_backward_internal R ctx inp grad op = Except.error Err.shapeError
      ↔ (grad.ndim ≠ inp.query.ndim ∨ grad.ndim ≠ ctx.out.ndim
         ∨ ctx.lse.ndim ≠ 3
         ∨ ctx.lse.shape.getD 0 0 ≠ inp2.query.shape.getD 0 0
         ∨ ctx.lse.shape.getD 1 0 ≠ inp2.query.shape.getD 2 0
         ∨ ctx.lse.shape.getD 2 0 < inp2.query.shape.getD 1 0) := by
  unfold mea_backward_internal
  by_cases hA : grad.ndim ≠ inp.query.ndim ∨ grad.ndim ≠ ctx.out.ndim
  · rw [if_pos hA]
    constructor
    · intro _
      tauto
    · intro _
      rfl
  · rw [if_neg hA]
    simp only [hn]
    by_cases hB : ctx.lse.ndim ≠ 3
        ∨ ctx.lse.shape.getD 0 0 ≠ inp2.query.shape.getD 0 0
        ∨ ctx.lse.shape.getD 1 0 ≠ inp2.query.shape.getD 2 0
        ∨ ctx.lse.shape.getD 2 0 < inp2.query.shape.getD 1 0
    · rw [if_pos hB]
      constructor
      · intro _
        tauto
      · intro _
        rfl
    · rw [if_neg hB]
      constructor
      · intro hcon
        exfalso
        rcases op with _ | o
        · rcases hd : R.dispatchBw inp2 with e | o2
          · rw [hd] at hcon
            simp only [Except.error.injEq] at hcon
            subst hcon
            exact hdb inp2 hd
          · rw [hd] at hcon
            simp only at hcon
            exact hba o2 _ inp2 _ hcon
        · simp only at hcon
          exact hba o _ inp2 _ hcon
      · intro hcon
        exact absurd hcon (by tauto)

/-- A rank-3 gradient, whose rank mismatches the rank-4 query. -/
def grad3 : Tensor := { shape := [1, 2, 4] }

/-- Context fixture for the C7 witness. -/
def ctxC7 : Context := { out := t4, lse := lseFix }

/-- C7 witness: a rank-3 grad against rank-4 query/out is a shape error. -/
theorem C7_backward_shape_validation_witness :
    mea_backward_internal R0 ctxC7 inpFix grad3 Option.none
      = Except.error Err.shapeError :=
  (C7_backward_shape_validation R0 ctxC7 inpFix grad3 Option.none inpFix
      [1, 2, 1, 4] rfl (fun i h => Except.noConfusion h)
      (fun o c i g h => Except.noConfusion h)).mpr (Or.inl (by decide))

/-! ### C8 — flash forward context under dropout -/

/-- C8: whenever the flash forward apply succeeds, the returned `Context`
carries, exactly for `p != 0`, the RNG state snapshot taken before the kernel
ran (the kernel advances the state only afterwards) and pins `flash.BwOp` as
the only recorded backward operator; for `p = 0` neither is recorded. -/
theorem C8_flash_fw_dropout_ctx (K : FlashFwKernel) (inp : Inputs) (ng : Bool)
    (rng : Nat) (out : Tensor) (ctx : Context) (rng2 : Nat)
    (h : flashFwApply K inp ng rng = (Except.ok (out, Option.some ctx), rng2)) :
    (inp.p ≠ 0 → ctx.rng_state = Option.some rng
        ∧ ctx.op_bw = Option.some OpId.flashBw ∧ rng2 = (K.run rng).1)
    ∧ (inp.p = 0 → ctx.rng_state = Option.none ∧ ctx.op_bw = Option.none) := by
  simp only [flashFwApply] at h
  rcases hb : inp.attn_bias with _ | t | _ <;> rw [hb] at h
  · by_cases hp : inp.p ≠ 0
    · simp only [if_pos hp, Prod.mk.injEq, Except.ok.injEq, Option.some.injEq] at h
      obtain ⟨⟨hout, hctx⟩, hrng⟩ := h
      subst hctx
      subst hrng
      exact ⟨fun _ => ⟨rfl, rfl, rfl⟩, fun hp0 => absurd hp0 hp⟩
    · simp only [if_neg hp, Prod.mk.injEq, Except.ok.injEq, Option.some.injEq] at h
      obtain ⟨⟨hout, hctx⟩, hrng⟩ := h
      subst hctx
      exact ⟨fun hq => absurd hq hp, fun _ => ⟨rfl, rfl⟩⟩
  · simp at h
  · by_cases hp : inp.p ≠ 0
    · simp only [if_pos hp, Prod.mk.injEq, Except.ok.injEq, Option.some.injEq] at h
      obtain ⟨⟨hout, hctx⟩, hrng⟩ := h
      subst hctx
      subst hrng
      exact ⟨fun _ => ⟨rfl, rfl, rfl⟩, fun hp0 => absurd hp0 hp⟩
    · simp only [if_neg hp, Prod.mk.injEq, Except.ok.injEq, Option.some.injEq] at h
      obtain ⟨⟨hout, hctx⟩, hrng⟩ := h
      subst hctx
      exact ⟨fun hq => absurd hq hp, fun _ => ⟨rfl, rfl⟩⟩

/-- A forward kernel fixture: advances the RNG state, emits `lseFix`. -/
def K8 : FlashFwKernel := ⟨fun s => (s + 1, lseFix)⟩

/-- The `Context` produced by the C8 witness forward call. -/
def ctx8 : Context :=
  { out := t4, lse := lseFix, rng_state := Option.some 42,
    op_bw := Option.some OpId.flashBw }

/-- C8 witness: a concrete dropout forward records the pre-kernel RNG state
42 and pins `flash.BwOp`. -/
theorem C8_flash_fw_dropout_ctx_witness :
    ctx8.rng_state = Option.some 42
    ∧ ctx8.op_bw = Option.some OpId.flashBw
    ∧ 43 = (K8.run 42).1 :=
  (C8_flash_fw_dropout_ctx K8 inpC2 true 42 t4 ctx8 43 (by decide)).1 (by decide)

/-! ### C9 — positional alignment of the backward gradient tuple -/

/-- C9: every successful bridge backward returns one entry per original
forward argument position, the operator selector included (length
`n_args + 1`): a no-gradient entry at the selector position 0, `dq`, `dk`,
`dv` at the query/key/value positions 1-3, and no-gradient entries at every
remaining (non-tensor argument) position. -/
theorem C9_backward_tuple_positions (R : Registry) (st : SavedState)
    (nig : List Bool) (grad : Tensor) (res : List (Option Tensor))
    (h3 : 3 ≤ st.nArgs)
    (h : fMHA_backward R st nig grad = Except.ok res) :
    ∃ dq dk dv : Tensor,
      res = [Option.none, Option.some dq, Option.some dk, Option.some dv]
            ++ List.replicate (st.nArgs - 3) Option.none
      ∧ res.length = st.nArgs + 1
      ∧ res[0]? = Option.some Option.none
      ∧ res[1]? = Option.some (Option.some dq)
      ∧ res[2]? = Option.some (Option.some dk)
      ∧ res[3]? = Option.some (Option.some dv)
      ∧ ∀ i, 4 ≤ i → i ≤ st.nArgs → res[i]? = Option.some Option.none := by
  simp only [fMHA_backward] at h
  split at h
  · exact absurd h (by simp)
  · split at h
    · exact absurd h (by simp)
    · rename_i grads heq
      simp only [Except.ok.injEq] at h
      subst h
      refine ⟨grads.dq, grads.dk, grads.dv, rfl, ?_, ?_, ?_, ?_, ?_, ?_⟩
      · simp only [List.length_append, List.length_replicate, List.length_cons,
          List.length_nil]
        omega
      · simp
      · simp
      · simp
      · simp
      · intro i h4 hn
        have hlen : ([Option.none, Option.some grads.dq, Option.some grads.dk,
            Option.some grads.dv] : List (Option Tensor)).length ≤ i := by
          simp only [List.length_cons, List.length_nil]
          omega
        rw [List.getElem?_append_right hlen]
        simp only [List.length_cons, List.length_nil, List.getElem?_replicate]
        rw [if_pos (by omega)]

/-- Saved bridge state fixture: consistent `[1, 2, 1, 4]` operands, six
positional arguments. -/
def st0 : SavedState :=
  { query := t4, key := t4, value := t4, out := t4, lse := lseFix,
    rng_state := Option.none, attn_bias_tensor := Option.none,
    op_fw := Option.some OpId.flashFw, op_bw := Option.some OpId.flashBw,
    p := 0, scale := Option.none, attn_bias_ctx := AttnBias.none, nArgs := 6 }

/-- C9 witness: a concrete successful backward produces the aligned tuple. -/
theorem C9_backward_tuple_positions_witness :
    ∃ dq dk dv : Tensor,
      ([Option.none, Option.some gradsFix.dq, Option.some gradsFix.dk,
        Option.some gradsFix.dv, Option.none, Option.none, Option.none]
          : List (Option Tensor))
        = [Option.none, Option.some dq, Option.some dk, Option.some dv]
          ++ List.replicate (st0.nArgs - 3) Option.none
      ∧ ([Option.none, Option.some gradsFix.dq, Option.some gradsFix.dk,
          Option.some gradsFix.dv, Option.none, Option.none, Option.none]
            : List (Option Tensor)).length = st0.nArgs + 1
      ∧ ([Option.none, Option.some gradsFix.dq, Option.some gradsFix.dk,
          Option.some gradsFix.dv, Option.none, Option.none, Option.none]
            : List (Option Tensor))[0]? = Option.some Option.none
      ∧ ([Option.none, Option.some gradsFix.dq, Option.some gradsFix.dk,
          Option.some gradsFix.dv, Option.none, Option.none, Option.none]
            : List (Option Tensor))[1]? = Option.some (Option.some dq)
      ∧ ([Option.none, Option.some gradsFix.dq, Option.some gradsFix.dk,
          Option.some gradsFix.dv, Option.none, Option.none, Option.none]
            : List (Option Tensor))[2]? = Option.some (Option.some dk)
      ∧ ([Option.none, Option.some gradsFix.dq, Option.some gradsFix.dk,
          Option.some gradsFix.dv, Option.none, Option.none, Option.none]
            : List (Option Tensor))[3]? = Option.some (Option.some dv)
      ∧ ∀ i, 4 ≤ i → i ≤ st0.nArgs →
          ([Option.none, Option.some gradsFix.dq, Option.some gradsFix.dk,
            Option.some gradsFix.dv, Option.none, Option.none, Option.none]
              : List (Option Tensor))[i]? = Option.some Option.none :=
  C9_backward_tuple_positions R0 st0 (List.replicate 7 false) t4
    [Option.none, Option.some gradsFix.dq, Option.some gradsFix.dk,
      Option.some gradsFix.dv, Option.none, Option.none, Option.none]
    (by decide) (by decide)

/-! ### C4 — gradient requests outside query/key/value -/

/-- C4 (code bug evaluation): the backward assertion iterates
`range(ctx.n_args)` (six indices) over `needs_input_grad`, which has seven
entries — one per forward input, the operator selector included.  A gradient
request at input position 6 (the `scale` argument) therefore passes the
assertion unchecked, the backward proceeds, and a null gradient is returned
for that position, contradicting the claimed fail-fast behavior and the
assertion message (only query/key/value gradients are implemented). -/
theorem C4_scale_grad_request_not_checked :
    ([false, false, false, false, false, false, true] : List Bool).getD 6 false
      = true
    ∧ fMHA_backward R0 st0 [false, false, false, false, false, false, true] t4
      = Except.ok [Option.none, Option.some gradsFix.dq, Option.some gradsFix.dk,
          Option.some gradsFix.dv, Option.none, Option.none, Option.none]
    ∧ ([Option.none, Option.some gradsFix.dq, Option.some gradsFix.dk,
        Option.some gradsFix.dv, Option.none, Option.none, Option.none]
          : List (Option Tensor)).getD 6 (Option.some t4) = Option.none := by
  exact ⟨rfl, by decide, rfl⟩

/-! ### C10 — flash backward support is a narrowing of forward support -/

/-- C10: the flash backward `supports` predicate equals the forward predicate
narrowed by exactly the head-dimension/hardware check (head dimension above
64 requires an sm80 device); in particular backward support implies forward
support. -/
theorem C10_bw_supports_subset_fw (fwLoaded : Bool) (d : Inputs) :
    flashBwSupports fwLoaded d
      = (flashFwSupports fwLoaded d
         && (decide (max d.key.lastDim d.query.lastDim ≤ 64)
             || decide (d.device.capMajor = 8 ∧ d.device.capMinor = 0)))
    ∧ (flashBwSupports fwLoaded d = true → flashFwSupports fwLoaded d = true) := by
  have heq : flashBwSupports fwLoaded d
      = (flashFwSupports fwLoaded d
         && (decide (max d.key.lastDim d.query.lastDim ≤ 64)
             || decide (d.device.capMajor = 8 ∧ d.device.capMinor = 0))) := by
    unfold flashBwSupports
    cases hf : flashFwSupports fwLoaded d
    · simp
    · by_cases h64 : max d.key.lastDim d.query.lastDim > 64
        <;> by_cases hsm : d.device.capMajor = 8 ∧ d.device.capMinor = 0
        <;> simp [h64, hsm]
        <;> omega
  refine ⟨heq, fun hbw => ?_⟩
  rw [heq, Bool.and_eq_true] at hbw
  exact hbw.1

/-- C10 witness: a fully supported input (embedding width 64, sm80, f16)
accepted by the backward predicate is accepted by the forward predicate. -/
theorem C10_bw_supports_subset_fw_witness :
    flashFwSupports true inpFix64 = true :=
  (C10_bw_supports_subset_fw true inpFix64).2 (by decide)

end XformersFmha
